import Mathlib

/-!
A shallow embedding of the clone-selection Monte Carlo simulator
(simulation.py): distribution fitting and resampling, criteria filtering,
the multi-stage workflow simulator, the sensitivity-analysis driver and the
workflow-efficiency metrics.  Measurement values are modelled as rationals;
the opaque stochastic primitives (numpy random draws, lognorm.fit,
lognorm.rvs, gaussian_kde.resample, np.sqrt) are parameters bundled in a
Backend structure, so every definition is a deterministic function of the
backend and of the raw randomness the backend supplies.
-/

namespace CloneSim

/-- numpy ascending argsort: the indices 0..len-1 sorted (stably) by value. -/
def argsort (xs : List ℚ) : List ℕ :=
  List.insertionSort (fun i j => xs.getD i 0 ≤ xs.getD j 0) (List.range xs.length)

/-- Python negative slicing a[-k:] on an array: for k = 0 this is the whole
array (a[-0:] is a[0:]), otherwise the last min k len elements. -/
def negSlice {α : Type} (k : ℕ) (xs : List α) : List α :=
  if k = 0 then xs else xs.drop (xs.length - k)

/-- numpy boolean-mask selection a[mask] (the two arrays have equal length). -/
def maskSelect (xs : List ℚ) (mask : List Bool) : List ℚ :=
  ((List.zip xs mask).filter (fun p => p.2)).map (fun p => p.1)

/-- numpy elementwise binary operation with length-1 broadcasting; none
models the error numpy raises on incompatible shapes. -/
def npBinop (f : ℚ → ℚ → ℚ) (xs ys : List ℚ) : Option (List ℚ) :=
  if xs.length = ys.length then some (List.zipWith f xs ys)
  else if xs.length = 1 then some (ys.map (fun b => f (xs.getD 0 0) b))
  else if ys.length = 1 then some (xs.map (fun a => f a (ys.getD 0 0)))
  else none

/-- Scalar times array, elementwise. -/
def npScale (c : ℚ) (xs : List ℚ) : List ℚ := xs.map (fun a => c * a)

/-- Array plus array, elementwise with broadcasting. -/
def npAdd (xs ys : List ℚ) : Option (List ℚ) := npBinop (fun a b => a + b) xs ys

/-- np.percentile with the default linear interpolation between closest ranks,
used for the success cutoff (simulation.py line 82). -/
def percentile (data : List ℚ) (q : ℚ) : Except String ℚ :=
  if data.length = 0 then .error "empty percentile input"
  else if q < 0 ∨ 100 < q then .error "percentile out of range"
  else
    let s := List.insertionSort (fun a b : ℚ => a ≤ b) data
    let h := ((data.length : ℚ) - 1) * q / 100
    let lo := (⌊h⌋).toNat
    let x := s.getD lo 0
    let y := s.getD (lo + 1) x
    .ok (x + (h - (lo : ℚ)) * (y - x))

/-- The clone table: a pandas dataframe as used here, i.e. a row count plus
named numeric columns. -/
structure DataFrame where
  nrows : ℕ
  cols : List (String × List ℚ)
deriving DecidableEq

/-- Column lookup, some values when the named column exists. -/
def DataFrame.col (df : DataFrame) (c : String) : Option (List ℚ) :=
  (df.cols.find? (fun p => p.1 == c)).map (fun p => p.2)

/-- Loop body of apply_criteria_filter (simulation.py lines 35-49): criteria
whose column is missing are skipped; otherwise the column is fancy-indexed
(an out-of-range index raises) and the mask is conjoined with the comparison
chosen by the operator; an unknown operator raises. -/
def applyCriteriaGo (df : DataFrame) (indices : List ℕ) :
    List (String × String × ℚ) → List Bool → Except String (List Bool)
  | [], mask => .ok mask
  | (crit_col, op, thresh) :: rest, mask =>
    match DataFrame.col df crit_col with
    | none => applyCriteriaGo df indices rest mask
    | some colVals =>
      if indices.any (fun i => colVals.length ≤ i) then
        .error "index out of bounds"
      else
        let col_vals := indices.map (fun i => colVals.getD i 0)
        if op = ">=" then
          applyCriteriaGo df indices rest
            (List.zipWith and mask (col_vals.map (fun v => decide (thresh ≤ v))))
        else if op = "<=" then
          applyCriteriaGo df indices rest
            (List.zipWith and mask (col_vals.map (fun v => decide (v ≤ thresh))))
        else if op = "=" then
          applyCriteriaGo df indices rest
            (List.zipWith and mask (col_vals.map (fun v => decide (|v - thresh| < 1 / 10 ^ 10))))
        else .error ("Unsupported operator: " ++ op)

/-- apply_criteria_filter (simulation.py lines 30-50). -/
def apply_criteria_filter (df : DataFrame) (criteria_settings : List (String × String × ℚ))
    (indices : List ℕ) : Except String (List Bool) :=
  if criteria_settings.isEmpty then .ok (List.replicate indices.length true)
  else applyCriteriaGo df indices criteria_settings (List.replicate indices.length true)

/-- The shape/loc/scale triple returned by lognorm.fit. -/
abbrev LognormModel := ℚ × ℚ × ℚ

/-- The opaque numeric and stochastic primitives the simulator is built on:
np.sqrt, lognorm.fit on positive data, one lognormal draw from a fitted
model, one gaussian_kde draw from its training data, and the raw randomness
(repetition index, call index within the trial, sample index). -/
structure Backend where
  sqrt : ℚ → ℚ
  lognormFit : List ℚ → LognormModel
  lognormSample : LognormModel → ℚ → ℚ
  kdeSample : List ℚ → ℚ → ℚ
  rand : ℕ → ℕ → ℕ → ℚ

/-- fit_lognormal (simulation.py lines 5-11). -/
def fit_lognormal (B : Backend) (data : List ℚ) : Except String LognormModel :=
  let d := data.filter (fun x => decide (0 < x))
  if d.isEmpty then .error "No positive data points for lognormal fitting"
  else .ok (B.lognormFit d)

/-- generate_samples (simulation.py lines 13-28): non-positive values are
filtered up front for BOTH methods; lognormal draws from the supplied or
freshly fitted model, kde draws from a kernel estimate built on the filtered
data d. -/
def generate_samples (B : Backend) (stream : ℕ → ℚ) (data : List ℚ) (size : ℕ)
    (method : String) (fitted_model : Option LognormModel) : Except String (List ℚ) :=
  let d := data.filter (fun x => decide (0 < x))
  if d.isEmpty then .error "No valid data points for sample generation"
  else if method = "lognormal" then
    match fitted_model with
    | some m => .ok ((List.range size).map (fun i => B.lognormSample m (stream i)))
    | none =>
      match fit_lognormal B d with
      | .error e => .error e
      | .ok m => .ok ((List.range size).map (fun i => B.lognormSample m (stream i)))
  else if method = "kde" then
    .ok ((List.range size).map (fun i => B.kdeSample d (stream i)))
  else .error "Unsupported distribution method"

/-- Modelled from the claim wording, not from the source: construct the
kernel density estimate directly from data, without filtering non-positive
values, and resample size points.  Used only to compare that reading of the
spec against generate_samples. -/
def kdeResampleSpec (B : Backend) (stream : ℕ → ℚ) (data : List ℚ) (size : ℕ) : List ℚ :=
  (List.range size).map (fun i => B.kdeSample data (stream i))

/-- The input validation block of simulate_workflow (simulation.py lines 62-73). -/
def validateWorkflowInputs (dataLen step1_keep step2_keep step3_keep workflow_steps : ℕ) :
    Except String Unit :=
  if dataLen = 0 then .error "No valid data provided"
  else if step1_keep > dataLen then .error "Step 1 keep cannot exceed data size"
  else if step2_keep > step1_keep then .error "Step 2 keep cannot exceed step 1 keep"
  else if workflow_steps = 3 ∧ step3_keep > step2_keep then
    .error "Step 3 keep cannot exceed step 2 keep"
  else .ok ()

/-- Output of the stage-2 part of a trial. -/
structure Stage2Out where
  top1_idx : List ℕ
  top1_f : List ℚ
  noise1 : List ℚ
  assay_g : List ℚ
deriving DecidableEq

/-- Output of the final-selection part of a trial. -/
structure Stage3Out where
  assay_h : Option (List ℚ)
  final_idx : List ℕ
  final_scores : List ℚ
deriving DecidableEq

/-- Every intermediate quantity of one completed Monte Carlo repetition. -/
structure TrialTrace where
  assay_f : List ℚ
  top1_idx : List ℕ
  top1_f : List ℚ
  noise1 : List ℚ
  assay_g : List ℚ
  top2_idx : List ℕ
  top2_f : List ℚ
  assay_h : Option (List ℚ)
  final_idx : List ℕ
  final_scores : List ℚ
  count : ℕ
deriving DecidableEq

/-- Trial lines 86-94: generate the stage-1 assay, apply the up-front criteria
filter when criteria are not deferred to the final step, and abort on a
shortfall.  none models continue, i.e. a silently skipped trial. -/
def trialStage1 (B : Backend) (rep : ℕ) (real_data : List ℚ) (df : DataFrame)
    (step1_keep : ℕ) (method : String) (criteria_settings : List (String × String × ℚ))
    (apply_criteria : Bool) (fitted_model : Option LognormModel) : Option (List ℚ) :=
  match generate_samples B (B.rand rep 0) real_data real_data.length method fitted_model with
  | .error _ => none
  | .ok assay_f =>
    if apply_criteria then some assay_f
    else
      match apply_criteria_filter df criteria_settings (List.range df.nrows) with
      | .error _ => none
      | .ok filter_mask =>
        if filter_mask.length = assay_f.length then
          let filtered := maskSelect assay_f filter_mask
          if filtered.length < step1_keep then none else some filtered
        else none

/-- Trial lines 96-105: stage-1 top-k selection and correlated stage-2
measurements, aborting when fewer than step2_keep values resulted. -/
def trialStage2 (B : Backend) (rep : ℕ) (real_data : List ℚ)
    (step1_keep step2_keep : ℕ) (correlation : ℚ) (method : String)
    (fitted_model : Option LognormModel) (assay_f : List ℚ) : Option Stage2Out :=
  let top1_idx := negSlice step1_keep (argsort assay_f)
  let top1_f := top1_idx.map (fun i => assay_f.getD i 0)
  match generate_samples B (B.rand rep 1) real_data step1_keep method fitted_model with
  | .error _ => none
  | .ok noise1 =>
    match npAdd (npScale correlation top1_f) (npScale (B.sqrt (1 - correlation ^ 2)) noise1) with
    | none => none
    | some assay_g =>
      if assay_g.length < step2_keep then none
      else some { top1_idx := top1_idx, top1_f := top1_f, noise1 := noise1, assay_g := assay_g }

/-- Trial lines 111-123: the optional third stage and the final top-k
selection; in the 2-step branch the stage-2 measurements are re-ranked and
step3_keep decides how many positions are taken. -/
def trialStage3 (B : Backend) (rep : ℕ) (real_data : List ℚ)
    (step2_keep step3_keep : ℕ) (correlation : ℚ) (method : String)
    (fitted_model : Option LognormModel) (workflow_steps : ℕ)
    (top1_f assay_g top2_f : List ℚ) : Option Stage3Out :=
  if workflow_steps = 3 then
    match generate_samples B (B.rand rep 2) real_data step2_keep method fitted_model with
    | .error _ => none
    | .ok noise2 =>
      match npAdd (npScale correlation top2_f) (npScale (B.sqrt (1 - correlation ^ 2)) noise2) with
      | none => none
      | some assay_h =>
        if assay_h.length < step3_keep then none
        else
          let final_idx := negSlice step3_keep (argsort assay_h)
          some { assay_h := some assay_h, final_idx := final_idx,
                 final_scores := final_idx.map (fun i => top2_f.getD i 0) }
  else
    let final_idx := negSlice step3_keep (argsort assay_g)
    some { assay_h := none, final_idx := final_idx,
           final_scores := final_idx.map (fun i => top1_f.getD i 0) }

/-- Trial lines 125-136: the all-or-nothing criteria gate at the final step,
with index remapping back to original clone-table rows. -/
def trialGate (df : DataFrame) (criteria_settings : List (String × String × ℚ))
    (apply_criteria : Bool) (workflow_steps : ℕ)
    (top1_idx top2_idx final_idx : List ℕ) : Option Unit :=
  if apply_criteria then
    let original_indices :=
      if workflow_steps = 3 then
        (final_idx.map (fun i => top2_idx.getD i 0)).map (fun i => top1_idx.getD i 0)
      else final_idx.map (fun i => top1_idx.getD i 0)
    match apply_criteria_filter df criteria_settings original_indices with
    | .error _ => none
    | .ok mask => if mask.all (fun b => b) then some () else none
  else some ()

/-- One Monte Carlo repetition of simulate_workflow (the body of the loop,
lines 85-140); none models a silently skipped trial. -/
def runTrial (B : Backend) (rep : ℕ) (real_data : List ℚ) (df : DataFrame) (cutoff : ℚ)
    (step1_keep step2_keep step3_keep : ℕ) (correlation : ℚ) (method : String)
    (criteria_settings : List (String × String × ℚ)) (apply_criteria : Bool)
    (workflow_steps : ℕ) (fitted_model : Option LognormModel) : Option TrialTrace :=
  (trialStage1 B rep real_data df step1_keep method criteria_settings apply_criteria
      fitted_model).bind fun assay_f =>
  (trialStage2 B rep real_data step1_keep step2_keep correlation method fitted_model
      assay_f).bind fun s2 =>
  let top2_idx := negSlice step2_keep (argsort s2.assay_g)
  let top2_f := top2_idx.map (fun i => s2.top1_f.getD i 0)
  (trialStage3 B rep real_data step2_keep step3_keep correlation method fitted_model
      workflow_steps s2.top1_f s2.assay_g top2_f).bind fun s3 =>
  (trialGate df criteria_settings apply_criteria workflow_steps s2.top1_idx top2_idx
      s3.final_idx).bind fun _ =>
  some { assay_f := assay_f, top1_idx := s2.top1_idx, top1_f := s2.top1_f,
         noise1 := s2.noise1, assay_g := s2.assay_g, top2_idx := top2_idx,
         top2_f := top2_f, assay_h := s3.assay_h, final_idx := s3.final_idx,
         final_scores := s3.final_scores,
         count := s3.final_scores.countP (fun x => decide (cutoff ≤ x)) }

/-- Line 143: a trial is fully successful when the success count equals
step3_keep (in the 3-step and in the 2-step workflow alike). -/
def trialFullySuccessful (step3_keep : ℕ) (t : TrialTrace) : Bool :=
  t.count == step3_keep

/-- simulate_workflow (simulation.py lines 52-151): validate, fit the model
once, compute the cutoff, run n_rep trials skipping failures silently, and
aggregate into (success probability, fitted model, success counts). -/
def simulate_workflow (B : Backend) (real_data : List ℚ) (df : DataFrame)
    (top_x_percent : ℚ) (step1_keep step2_keep step3_keep : ℕ) (correlation : ℚ)
    (n_rep : ℕ) (method : String) (criteria_settings : List (String × String × ℚ))
    (apply_criteria : Bool) (workflow_steps : ℕ) :
    Except String (ℚ × Option LognormModel × List ℕ) :=
  match validateWorkflowInputs real_data.length step1_keep step2_keep step3_keep
      workflow_steps with
  | .error e => .error e
  | .ok _ =>
    match (if method = "lognormal" then Except.map some (fit_lognormal B real_data)
           else .ok none) with
    | .error e => .error e
    | .ok fitted_model =>
      match percentile real_data (100 - top_x_percent) with
      | .error e => .error e
      | .ok cutoff =>
        let traces := (List.range n_rep).filterMap (fun rep =>
          runTrial B rep real_data df cutoff step1_keep step2_keep step3_keep
            correlation method criteria_settings apply_criteria workflow_steps
            fitted_model)
        let success_counts := traces.map (fun t => t.count)
        let success_count := traces.countP (trialFullySuccessful step3_keep)
        let success_probability : ℚ :=
          if 0 < n_rep then (success_count : ℚ) / (n_rep : ℚ) else 0
        .ok (success_probability, fitted_model, success_counts)

/-- The baseline configuration dictionary consumed by the sensitivity driver. -/
structure Settings where
  step1_keep : ℕ
  step2_keep : ℕ
  step3_keep : ℕ
  top_x_percent : ℚ
  dist_method : String
  criteria_settings : List (String × String × ℚ)
  apply_criteria_at_step2 : Bool
  workflow_steps : ℕ
deriving DecidableEq

/-- The three parameters swept by run_sensitivity_analysis. -/
inductive SweepParam
  | step1_keep
  | step2_keep
  | top_x_percent
deriving DecidableEq

/-- The hard-coded candidate grid of run_sensitivity_analysis (lines 163-176);
Python int(x * m) on a nonnegative integer baseline truncates toward zero,
which is Nat division here. -/
def paramCandidates (s : Settings) : SweepParam → List ℕ
  | .step1_keep =>
    [s.step1_keep / 2, s.step1_keep * 3 / 4, s.step1_keep, s.step1_keep * 5 / 4,
     s.step1_keep * 3 / 2]
  | .step2_keep =>
    [s.step2_keep / 2, s.step2_keep * 3 / 4, s.step2_keep, s.step2_keep * 5 / 4,
     s.step2_keep * 3 / 2]
  | .top_x_percent => [1, 2, 5, 10, 15]

/-- Lines 186-194: override one parameter and re-clamp the dependent keeps. -/
def applyCandidate (s : Settings) : SweepParam → ℕ → Settings
  | .step1_keep, v =>
    { s with step1_keep := v, step2_keep := min s.step2_keep v,
             step3_keep := min s.step3_keep (min s.step2_keep v) }
  | .step2_keep, v => { s with step2_keep := v, step3_keep := min s.step3_keep v }
  | .top_x_percent, v => { s with top_x_percent := (v : ℚ) }

/-- Lines 196-206: one sensitivity-sweep cell — the simulator's probability,
or 0 when the simulator fails (the caught-exception fallback). -/
def candidateProb (B : Backend) (results : List ℚ) (df : DataFrame) (ts : Settings)
    (correlation : ℚ) : ℚ :=
  match simulate_workflow B results df ts.top_x_percent ts.step1_keep ts.step2_keep
      ts.step3_keep correlation 1000 ts.dist_method ts.criteria_settings
      ts.apply_criteria_at_step2 ts.workflow_steps with
  | .ok r => r.1
  | .error _ => 0

/-- run_sensitivity_analysis (simulation.py lines 153-213), viewed at one
swept parameter: the five candidate values together with the per-candidate
probabilities; n_rep is fixed at 1000 and the correlation is the head of the
supplied list, defaulting to one half.  Bf p i is the backend (randomness)
used by the simulator call for candidate i of parameter p. -/
def run_sensitivity_analysis (Bf : SweepParam → ℕ → Backend) (results : List ℚ)
    (df : DataFrame) (settings : Settings) (correlations : List ℚ)
    (p : SweepParam) : List ℕ × List ℚ :=
  let vals := paramCandidates settings p
  let correlation := correlations.getD 0 (1 / 2)
  let probs := (List.range vals.length).map (fun i =>
    let ts := applyCandidate settings p (vals.getD i 0)
    match simulate_workflow (Bf p i) results df ts.top_x_percent ts.step1_keep
        ts.step2_keep ts.step3_keep correlation 1000 ts.dist_method
        ts.criteria_settings ts.apply_criteria_at_step2 ts.workflow_steps with
    | .ok r => r.1
    | .error _ => 0)
  (vals, probs)

/-- The record returned by calculate_workflow_efficiency. -/
structure EfficiencyMetrics where
  reduction_ratio : ℚ
  step1_efficiency : ℚ
  step2_efficiency : ℚ
  overall_efficiency : ℚ
deriving DecidableEq

/-- calculate_workflow_efficiency (simulation.py lines 215-227). -/
def calculate_workflow_efficiency (step1_keep step2_keep step3_keep workflow_steps : ℕ) :
    EfficiencyMetrics :=
  let total_screened : ℚ := step1_keep
  let final_selected : ℚ := if workflow_steps = 3 then step3_keep else step2_keep
  { reduction_ratio := total_screened / final_selected,
    step1_efficiency := (step2_keep : ℚ) / (step1_keep : ℚ),
    step2_efficiency := if workflow_steps = 3 then (step3_keep : ℚ) / (step2_keep : ℚ) else 1,
    overall_efficiency := final_selected / total_screened }

/-- Whether an Except value is an error. -/
def exceptIsError {ε α : Type} : Except ε α → Bool
  | .error _ => true
  | .ok _ => false

/-- All swept indices are in range for every criteria column present in the
table (the numpy fancy-indexing precondition in apply_criteria_filter). -/
def indicesInBounds (df : DataFrame) (criteria_settings : List (String × String × ℚ))
    (indices : List ℕ) : Bool :=
  criteria_settings.all (fun cr =>
    match DataFrame.col df cr.1 with
    | none => true
    | some colVals => indices.all (fun i => decide (i < colVals.length)))

/-- A concrete backend used for witness evaluations. -/
def B0 : Backend :=
  { sqrt := fun x => x, lognormFit := fun _ => (0, 0, 0),
    lognormSample := fun _ r => r, kdeSample := fun _ r => r,
    rand := fun _ _ _ => 5 }

/-- A concrete backend whose KDE resampler depends on its training data. -/
def B1 : Backend :=
  { sqrt := fun x => x, lognormFit := fun _ => (0, 0, 0),
    lognormSample := fun _ r => r, kdeSample := fun d r => d.sum + r,
    rand := fun _ _ _ => 0 }

/-- A clone table with one row and no criteria columns. -/
def df0 : DataFrame := { nrows := 1, cols := [] }

/-- A clone table with one row and one criteria column c. -/
def df1 : DataFrame := { nrows := 1, cols := [("c", [0])] }

/-- The trace of the concrete witness trial. -/
def t0 : TrialTrace :=
  { assay_f := [5], top1_idx := [0], top1_f := [5], noise1 := [5], assay_g := [25 / 4],
    top2_idx := [0], top2_f := [5], assay_h := none, final_idx := [0],
    final_scores := [5], count := 1 }

/-- A concrete baseline configuration used for sweep witnesses. -/
def s0 : Settings :=
  { step1_keep := 4, step2_keep := 1, step3_keep := 1, top_x_percent := 50,
    dist_method := "kde", criteria_settings := [], apply_criteria_at_step2 := true,
    workflow_steps := 2 }

/-- The constant backend family used for sweep witnesses. -/
def Bf0 : SweepParam → ℕ → Backend := fun _ _ => B0


theorem argsort_length (xs : List ℚ) : (argsort xs).length = xs.length := by
  simpa [argsort] using
    (List.perm_insertionSort (fun i j => xs.getD i 0 ≤ xs.getD j 0)
      (List.range xs.length)).length_eq

theorem mem_argsort (xs : List ℚ) (i : ℕ) : i ∈ argsort xs ↔ i < xs.length := by
  rw [argsort,
    (List.perm_insertionSort (fun i j => xs.getD i 0 ≤ xs.getD j 0)
      (List.range xs.length)).mem_iff]
  exact List.mem_range

theorem argsort_sorted (xs : List ℚ) :
    List.Sorted (fun i j => xs.getD i 0 ≤ xs.getD j 0) (argsort xs) := by
  haveI : IsTotal ℕ (fun i j => xs.getD i 0 ≤ xs.getD j 0) := ⟨fun a b => le_total _ _⟩
  haveI : IsTrans ℕ (fun i j => xs.getD i 0 ≤ xs.getD j 0) :=
    ⟨fun a b c hab hbc => le_trans hab hbc⟩
  exact List.sorted_insertionSort _ _

theorem negSlice_length {α : Type} (k : ℕ) (xs : List α) (hk : k ≠ 0) :
    (negSlice k xs).length = min k xs.length := by
  simp only [negSlice, if_neg hk, List.length_drop]
  omega

theorem mem_of_mem_negSlice {α : Type} {k : ℕ} {xs : List α} {a : α}
    (h : a ∈ negSlice k xs) : a ∈ xs := by
  by_cases hk : k = 0
  · simpa [negSlice, hk] using h
  · exact List.drop_subset _ _ (by simpa [negSlice, hk] using h)

theorem negSlice_dominates (xs : List ℚ) (k : ℕ) :
    ∀ i ∈ negSlice k (argsort xs), ∀ j, j < xs.length →
      j ∉ negSlice k (argsort xs) → xs.getD j 0 ≤ xs.getD i 0 := by
  intro i hi j hj hjn
  by_cases hk : k = 0
  · exact absurd ((mem_argsort xs j).mpr hj) (by simpa [negSlice, hk] using hjn)
  · have hpw : List.Pairwise (fun a b => xs.getD a 0 ≤ xs.getD b 0)
        (List.take ((argsort xs).length - k) (argsort xs) ++
         List.drop ((argsort xs).length - k) (argsort xs)) := by
      rw [List.take_append_drop]
      exact argsort_sorted xs
    rw [List.pairwise_append] at hpw
    have hjl : j ∈ argsort xs := (mem_argsort xs j).mpr hj
    have hjd : j ∉ List.drop ((argsort xs).length - k) (argsort xs) := by
      simpa [negSlice, hk] using hjn
    have hj2 : j ∈ List.take ((argsort xs).length - k) (argsort xs) ++
        List.drop ((argsort xs).length - k) (argsort xs) := by
      rw [List.take_append_drop]; exact hjl
    have hjtake : j ∈ List.take ((argsort xs).length - k) (argsort xs) := by
      rcases List.mem_append.mp hj2 with h1 | h1
      · exact h1
      · exact absurd h1 hjd
    exact hpw.2.2 j hjtake i (by simpa [negSlice, hk] using hi)

theorem generate_samples_ok_length {B : Backend} {stream : ℕ → ℚ} {data : List ℚ}
    {size : ℕ} {method : String} {fm : Option LognormModel} {l : List ℚ}
    (h : generate_samples B stream data size method fm = .ok l) : l.length = size := by
  simp only [generate_samples] at h
  split at h
  · exact Except.noConfusion h
  · split at h
    · split at h
      · cases h; simp
      · split at h
        · exact Except.noConfusion h
        · cases h; simp
    · split at h
      · cases h; simp
      · exact Except.noConfusion h

theorem npBinop_eq_of_length_eq (f : ℚ → ℚ → ℚ) (xs ys : List ℚ)
    (h : xs.length = ys.length) : npBinop f xs ys = some (List.zipWith f xs ys) := by
  simp [npBinop, h]

theorem npAdd_scale_eq {c d : ℚ} {xs ys zs : List ℚ} (hlen : xs.length = ys.length)
    (h : npAdd (npScale c xs) (npScale d ys) = some zs) :
    zs = List.zipWith (fun a b => c * a + d * b) xs ys := by
  rw [npAdd, npBinop_eq_of_length_eq _ _ _ (by simp [npScale, hlen])] at h
  simp only [Option.some.injEq] at h
  subst h
  rw [npScale, npScale, List.zipWith_map_left, List.zipWith_map_right]


theorem trialStage1_some_length {B : Backend} {rep : ℕ} {real_data : List ℚ}
    {df : DataFrame} {step1_keep : ℕ} {method : String}
    {criteria_settings : List (String × String × ℚ)} {apply_criteria : Bool}
    {fitted_model : Option LognormModel} {af : List ℚ}
    (h : trialStage1 B rep real_data df step1_keep method criteria_settings
      apply_criteria fitted_model = some af) :
    (apply_criteria = true → af.length = real_data.length) ∧
    (apply_criteria = false → step1_keep ≤ af.length) := by
  simp only [trialStage1] at h
  split at h
  · exact Option.noConfusion h
  · rename_i assay_f hgen
    split at h
    · rename_i hac
      cases h
      constructor
      · intro _; exact generate_samples_ok_length hgen
      · intro hfalse; rw [hac] at hfalse; exact Bool.noConfusion hfalse
    · rename_i hac
      split at h
      · exact Option.noConfusion h
      · split at h
        · split at h
          · exact Option.noConfusion h
          · rename_i hlen
            cases h
            constructor
            · intro htrue; exact absurd htrue hac
            · intro _; omega
        · exact Option.noConfusion h

theorem trialStage2_some {B : Backend} {rep : ℕ} {real_data : List ℚ}
    {step1_keep step2_keep : ℕ} {correlation : ℚ} {method : String}
    {fitted_model : Option LognormModel} {af : List ℚ} {s2 : Stage2Out}
    (h : trialStage2 B rep real_data step1_keep step2_keep correlation method
      fitted_model af = some s2) :
    s2.top1_idx = negSlice step1_keep (argsort af) ∧
    s2.top1_f = (negSlice step1_keep (argsort af)).map (fun i => af.getD i 0) ∧
    generate_samples B (B.rand rep 1) real_data step1_keep method fitted_model =
      .ok s2.noise1 ∧
    npAdd (npScale correlation s2.top1_f)
      (npScale (B.sqrt (1 - correlation ^ 2)) s2.noise1) = some s2.assay_g ∧
    step2_keep ≤ s2.assay_g.length := by
  simp only [trialStage2] at h
  split at h
  · exact Option.noConfusion h
  · rename_i noise1 hgen
    split at h
    · exact Option.noConfusion h
    · rename_i assay_g hadd
      split at h
      · exact Option.noConfusion h
      · rename_i hshort
        cases h
        refine ⟨rfl, rfl, hgen, hadd, ?_⟩
        show step2_keep ≤ assay_g.length
        omega

theorem trialStage3_some {B : Backend} {rep : ℕ} {real_data : List ℚ}
    {step2_keep step3_keep : ℕ} {correlation : ℚ} {method : String}
    {fitted_model : Option LognormModel} {workflow_steps : ℕ}
    {top1_f assay_g top2_f : List ℚ} {s3 : Stage3Out}
    (h : trialStage3 B rep real_data step2_keep step3_keep correlation method
      fitted_model workflow_steps top1_f assay_g top2_f = some s3) :
    (workflow_steps = 3 → ∃ ah, s3.assay_h = some ah ∧ step3_keep ≤ ah.length ∧
      s3.final_idx = negSlice step3_keep (argsort ah) ∧
      s3.final_scores = s3.final_idx.map (fun i => top2_f.getD i 0)) ∧
    (workflow_steps ≠ 3 → s3.assay_h = none ∧
      s3.final_idx = negSlice step3_keep (argsort assay_g) ∧
      s3.final_scores = s3.final_idx.map (fun i => top1_f.getD i 0)) := by
  simp only [trialStage3] at h
  split at h
  · rename_i hsteps
    split at h
    · exact Option.noConfusion h
    · rename_i noise2 hgen
      split at h
      · exact Option.noConfusion h
      · rename_i assay_h hadd
        split at h
        · exact Option.noConfusion h
        · rename_i hshort
          cases h
          constructor
          · intro _
            exact ⟨assay_h, rfl, by omega, rfl, rfl⟩
          · intro hne; exact absurd hsteps hne
  · rename_i hsteps
    cases h
    constructor
    · intro h3; exact absurd h3 hsteps
    · intro _; exact ⟨rfl, rfl, rfl⟩

theorem runTrial_some {B : Backend} {rep : ℕ} {real_data : List ℚ} {df : DataFrame}
    {cutoff : ℚ} {step1_keep step2_keep step3_keep : ℕ} {correlation : ℚ}
    {method : String} {criteria_settings : List (String × String × ℚ)}
    {apply_criteria : Bool} {workflow_steps : ℕ} {fitted_model : Option LognormModel}
    {t : TrialTrace}
    (h : runTrial B rep real_data df cutoff step1_keep step2_keep step3_keep
      correlation method criteria_settings apply_criteria workflow_steps
      fitted_model = some t) :
    ∃ af s2 s3,
      trialStage1 B rep real_data df step1_keep method criteria_settings
        apply_criteria fitted_model = some af ∧
      trialStage2 B rep real_data step1_keep step2_keep correlation method
        fitted_model af = some s2 ∧
      trialStage3 B rep real_data step2_keep step3_keep correlation method
        fitted_model workflow_steps s2.top1_f s2.assay_g
        ((negSlice step2_keep (argsort s2.assay_g)).map
          (fun i => s2.top1_f.getD i 0)) = some s3 ∧
      t.assay_f = af ∧ t.top1_idx = s2.top1_idx ∧ t.top1_f = s2.top1_f ∧
      t.noise1 = s2.noise1 ∧ t.assay_g = s2.assay_g ∧
      t.top2_idx = negSlice step2_keep (argsort s2.assay_g) ∧
      t.top2_f = (negSlice step2_keep (argsort s2.assay_g)).map
        (fun i => s2.top1_f.getD i 0) ∧
      t.assay_h = s3.assay_h ∧ t.final_idx = s3.final_idx ∧
      t.final_scores = s3.final_scores ∧
      t.count = s3.final_scores.countP (fun x => decide (cutoff ≤ x)) := by
  simp only [runTrial, Option.bind_eq_some] at h
  obtain ⟨af, h1, s2, h2, s3, h3, u, h4, h5⟩ := h
  cases h5
  exact ⟨af, s2, s3, h1, h2, h3, rfl, rfl, rfl, rfl, rfl, rfl, rfl, rfl, rfl, rfl, rfl⟩

theorem negSlice_singleton {α : Type} (k : ℕ) (a : α) : negSlice k [a] = [a] := by
  cases k <;> simp [negSlice]

theorem runTrialEval (rep k3 : ℕ) :
    runTrial B0 rep [1] df0 0 1 1 k3 (1/2) "kde" [] true 2 none = some t0 := by
  have hg : ∀ j, generate_samples B0 (B0.rand rep j) [1] 1 "kde" none = .ok [5] := by
    intro j
    norm_num [generate_samples, B0, String.reduceEq, List.replicate] <;> (intro h; simp at h)
  have h1 : trialStage1 B0 rep [1] df0 1 "kde" [] true none = some [5] := by
    simp [trialStage1, hg 0]
  have h2 : trialStage2 B0 rep [1] 1 1 (1/2) "kde" none [5] =
      some { top1_idx := [0], top1_f := [5], noise1 := [5], assay_g := [25/4] } := by
    simp [trialStage2, hg 1, argsort, negSlice, npAdd, npBinop, npScale,
      List.insertionSort, List.orderedInsert]
    norm_num [B0]
  have h3 : trialStage3 B0 rep [1] 1 k3 (1/2) "kde" none 2 [5] [25/4] [5] =
      some { assay_h := none, final_idx := [0], final_scores := [5] } := by
    simp only [trialStage3, if_neg (by omega : ¬(2 = 3)), argsort,
      List.insertionSort, List.orderedInsert]
    norm_num [negSlice_singleton]
  have h4 : trialGate df0 [] true 2 [0] [0] [0] = some () := by
    simp [trialGate, apply_criteria_filter]
  simp only [runTrial]
  norm_num [h1, h2, h3, h4, t0, argsort, negSlice, List.insertionSort,
    List.orderedInsert, List.countP, List.countP.go]

/-- C1: in every completed trial of simulate_workflow run under a validated
configuration (positive keeps, step1_keep within the data size), the stage-2
measurement vector equals correlation times the stage-1 values of the
step1_keep stage-1 survivors plus sqrt of one minus correlation squared times
a fresh noise vector of length step1_keep, and the stage-2 survivors are the
top step2_keep positions of that vector, carrying forward their stage-1
values (not the stage-2 measurements) as the tracked proxy values. -/
theorem C1_stage2_correlated_selection
    {B : Backend} {rep : ℕ} {real_data : List ℚ} {df : DataFrame} {cutoff : ℚ}
    {step1_keep step2_keep step3_keep : ℕ} {correlation : ℚ} {method : String}
    {criteria_settings : List (String × String × ℚ)} {apply_criteria : Bool}
    {workflow_steps : ℕ} {fitted_model : Option LognormModel} {t : TrialTrace}
    (h : runTrial B rep real_data df cutoff step1_keep step2_keep step3_keep
      correlation method criteria_settings apply_criteria workflow_steps
      fitted_model = some t)
    (hk1 : 1 ≤ step1_keep) (hk1n : step1_keep ≤ real_data.length)
    (hk2 : 1 ≤ step2_keep) :
    t.noise1.length = step1_keep ∧
    t.top1_f.length = step1_keep ∧
    t.assay_g = List.zipWith
      (fun a b => correlation * a + B.sqrt (1 - correlation ^ 2) * b)
      t.top1_f t.noise1 ∧
    t.top2_idx = negSlice step2_keep (argsort t.assay_g) ∧
    t.top2_idx.length = step2_keep ∧
    t.top2_f = t.top2_idx.map (fun i => t.top1_f.getD i 0) ∧
    (∀ i ∈ t.top2_idx, ∀ j, j < t.assay_g.length → j ∉ t.top2_idx →
      t.assay_g.getD j 0 ≤ t.assay_g.getD i 0) := by
  obtain ⟨af, s2, s3, hs1, hs2, hs3, haf, hti, htf, hn1, hg, ht2i, ht2f, hah, hfi,
    hfs, hc⟩ := runTrial_some h
  obtain ⟨hidx, htop1, hgen, hadd, hk2len⟩ := trialStage2_some hs2
  obtain ⟨haclen, hacge⟩ := trialStage1_some_length hs1
  have hnoise : s2.noise1.length = step1_keep := generate_samples_ok_length hgen
  have haflen : step1_keep ≤ af.length := by
    cases apply_criteria
    · exact hacge rfl
    · rw [haclen rfl]; exact hk1n
  have htop1len : s2.top1_f.length = step1_keep := by
    rw [htop1, List.length_map, negSlice_length _ _ (by omega), argsort_length]
    omega
  have hzip : s2.assay_g = List.zipWith
      (fun a b => correlation * a + B.sqrt (1 - correlation ^ 2) * b)
      s2.top1_f s2.noise1 :=
    npAdd_scale_eq (by rw [htop1len, hnoise]) hadd
  refine ⟨?_, ?_, ?_, ?_, ?_, ?_, ?_⟩
  · rw [hn1]; exact hnoise
  · rw [htf]; exact htop1len
  · rw [hg, htf, hn1]; exact hzip
  · rw [ht2i, hg]
  · rw [ht2i, negSlice_length _ _ (by omega), argsort_length]; omega
  · rw [ht2f, ht2i, htf]
  · intro i hi j hj hjn
    rw [ht2i] at hi hjn
    rw [hg] at hj ⊢
    exact negSlice_dominates s2.assay_g step2_keep i hi j hj hjn

/-- C1 witness: the theorem instantiated at the concrete evaluated trial
stored in t0. -/
theorem C1_witness :
    t0.noise1.length = 1 ∧
    t0.top1_f.length = 1 ∧
    t0.assay_g = List.zipWith
      (fun a b => (1 / 2 : ℚ) * a + B0.sqrt (1 - (1 / 2 : ℚ) ^ 2) * b)
      t0.top1_f t0.noise1 ∧
    t0.top2_idx = negSlice 1 (argsort t0.assay_g) ∧
    t0.top2_idx.length = 1 ∧
    t0.top2_f = t0.top2_idx.map (fun i => t0.top1_f.getD i 0) ∧
    (∀ i ∈ t0.top2_idx, ∀ j, j < t0.assay_g.length → j ∉ t0.top2_idx →
      t0.assay_g.getD j 0 ≤ t0.assay_g.getD i 0) :=
  C1_stage2_correlated_selection (runTrialEval 0 1) (by omega) (by decide) (by omega)

/-- C2: whenever simulate_workflow returns a result, the probability is the
number of fully successful trials (entries of the success-count list equal to
step3_keep) divided by the nominal n_rep; skipped trials shorten the success
count list but never the denominator, and the probability lies in the unit
interval. -/
theorem C2_probability_aggregation
    {B : Backend} {real_data : List ℚ} {df : DataFrame} {top_x_percent : ℚ}
    {step1_keep step2_keep step3_keep : ℕ} {correlation : ℚ} {n_rep : ℕ}
    {method : String} {criteria_settings : List (String × String × ℚ)}
    {apply_criteria : Bool} {workflow_steps : ℕ} {p : ℚ}
    {fm : Option LognormModel} {counts : List ℕ}
    (h : simulate_workflow B real_data df top_x_percent step1_keep step2_keep
      step3_keep correlation n_rep method criteria_settings apply_criteria
      workflow_steps = .ok (p, fm, counts)) :
    0 ≤ p ∧ p ≤ 1 ∧ counts.length ≤ n_rep ∧
    p = (counts.count step3_keep : ℚ) / (n_rep : ℚ) ∧
    (n_rep = 0 → p = 0) := by
  simp only [simulate_workflow] at h
  split at h
  · exact Except.noConfusion h
  · split at h
    · exact Except.noConfusion h
    · split at h
      · exact Except.noConfusion h
      · rename_i cutoff hperc
        simp only [Except.ok.injEq, Prod.mk.injEq] at h
        obtain ⟨hp, hfm, hcounts⟩ := h
        rw [hfm] at hp hcounts
        have hcount : counts.count step3_keep =
            ((List.range n_rep).filterMap (fun rep =>
              runTrial B rep real_data df cutoff step1_keep step2_keep step3_keep
                correlation method criteria_settings apply_criteria workflow_steps
                fm)).countP (trialFullySuccessful step3_keep) := by
          rw [← hcounts]
          simp only [List.count, List.countP_map]
          rfl
        have hlen : counts.length ≤ n_rep := by
          rw [← hcounts]
          simp only [List.length_map]
          exact le_trans (List.length_filterMap_le _ _) (by simp)
        have hle : counts.count step3_keep ≤ n_rep :=
          le_trans (List.count_le_length _ _) hlen
        refine ⟨?_, ?_, hlen, ?_, ?_⟩
        · rw [← hp]
          split
          · positivity
          · exact le_refl 0
        · rw [← hp]
          split
          · rename_i hn
            rw [div_le_one (by exact_mod_cast hn)]
            exact_mod_cast le_trans (le_of_eq hcount.symm) hle
          · norm_num
        · rw [← hp, hcount]
          split
          · rfl
          · rename_i hn
            have hz : n_rep = 0 := by omega
            rw [hz]
            simp
        · intro h0
          rw [← hp, h0]
          norm_num

theorem simEval : simulate_workflow B0 [1, 2] df0 50 2 1 1 (1/2) 2 "kde" [] true 2 =
    .ok (1, none, [1, 1]) := by
  have hg : ∀ rep j, generate_samples B0 (B0.rand rep j) [1, 2] 2 "kde" none =
      .ok [5, 5] := by
    intro rep j
    norm_num [generate_samples, B0, String.reduceEq, List.replicate] <;> (intro h; simp at h)
  have h1 : ∀ rep, trialStage1 B0 rep [1, 2] df0 2 "kde" [] true none = some [5, 5] := by
    intro rep; simp [trialStage1, hg rep 0]
  have h2 : ∀ rep, trialStage2 B0 rep [1, 2] 2 1 (1/2) "kde" none [5, 5] =
      some { top1_idx := [0, 1], top1_f := [5, 5], noise1 := [5, 5],
             assay_g := [25/4, 25/4] } := by
    intro rep
    simp [trialStage2, hg rep 1, argsort, negSlice, npAdd, npBinop, npScale,
      List.insertionSort, List.orderedInsert]
    norm_num [B0]
  have h3 : ∀ rep, trialStage3 B0 rep [1, 2] 1 1 (1/2) "kde" none 2 [5, 5]
      [25/4, 25/4] [5] =
      some { assay_h := none, final_idx := [1], final_scores := [5] } := by
    intro rep
    simp [trialStage3, argsort, negSlice, List.insertionSort, List.orderedInsert]
  have h4 : trialGate df0 [] true 2 [0, 1] [1] [1] = some () := by
    simp [trialGate, apply_criteria_filter]
  have hrt : ∀ rep, runTrial B0 rep [1, 2] df0 (3/2) 2 1 1 (1/2) "kde" [] true 2 none =
      some { assay_f := [5, 5], top1_idx := [0, 1], top1_f := [5, 5], noise1 := [5, 5],
             assay_g := [25/4, 25/4], top2_idx := [1], top2_f := [5], assay_h := none,
             final_idx := [1], final_scores := [5], count := 1 } := by
    intro rep
    simp only [runTrial]
    norm_num [h1 rep, h2 rep, h3 rep, h4, argsort, negSlice, List.insertionSort,
      List.orderedInsert, List.countP, List.countP.go]
  have hp : percentile [1, 2] 50 = .ok (3/2) := by
    norm_num [percentile, List.insertionSort, List.orderedInsert]
  simp only [simulate_workflow, validateWorkflowInputs, String.reduceEq]
  norm_num [hp, List.range_succ, List.filterMap, hrt, trialFullySuccessful,
    List.countP, List.countP.go]

/-- C2 witness: the theorem applied to a fully evaluated two-repetition run. -/
theorem C2_witness :
    (0 : ℚ) ≤ 1 ∧ (1 : ℚ) ≤ 1 ∧ ([1, 1] : List ℕ).length ≤ 2 ∧
    (1 : ℚ) = ((([1, 1] : List ℕ).count 1 : ℕ) : ℚ) / ((2 : ℕ) : ℚ) ∧
    ((2 : ℕ) = 0 → (1 : ℚ) = 0) :=
  C2_probability_aggregation simEval

/-- C4: the precondition check of simulate_workflow succeeds exactly when the
observed sample is nonempty, step1_keep is at most the data size, step2_keep
is at most step1_keep, and, only when workflow_steps is 3, step3_keep is at
most step2_keep; when it fails, simulate_workflow returns that very error
before any trial runs. -/
theorem C4_validate_fail_fast (B : Backend) (real_data : List ℚ) (df : DataFrame)
    (top_x_percent : ℚ) (step1_keep step2_keep step3_keep : ℕ) (correlation : ℚ)
    (n_rep : ℕ) (method : String) (criteria_settings : List (String × String × ℚ))
    (apply_criteria : Bool) (workflow_steps : ℕ) :
    (validateWorkflowInputs real_data.length step1_keep step2_keep step3_keep
        workflow_steps = .ok () ↔
      (0 < real_data.length ∧ step1_keep ≤ real_data.length ∧
        step2_keep ≤ step1_keep ∧ (workflow_steps = 3 → step3_keep ≤ step2_keep))) ∧
    (∀ e, validateWorkflowInputs real_data.length step1_keep step2_keep step3_keep
        workflow_steps = .error e →
      simulate_workflow B real_data df top_x_percent step1_keep step2_keep step3_keep
        correlation n_rep method criteria_settings apply_criteria workflow_steps =
        .error e) := by
  constructor
  · unfold validateWorkflowInputs
    split_ifs with h1 h2 h3 h4 <;> simp <;> omega
  · intro e he
    simp only [simulate_workflow, he]

/-- C4 witness: step1_keep equal to the data size is legal, and step1_keep
one above the data size makes simulate_workflow fail fast with the
configuration error. -/
theorem C4_witness :
    validateWorkflowInputs 1 1 1 1 2 = .ok () ∧
    simulate_workflow B0 [1] df0 50 2 1 1 0 5 "kde" [] true 2 =
      .error "Step 1 keep cannot exceed data size" := by
  constructor
  · exact (C4_validate_fail_fast B0 [1] df0 50 1 1 1 0 5 "kde" [] true 2).1.mpr
      (by decide)
  · exact (C4_validate_fail_fast B0 [1] df0 50 2 1 1 0 5 "kde" [] true 2).2
      "Step 1 keep cannot exceed data size" rfl

/-- C9 (amended): in every completed trial with positive step3_keep, the
3-step branch selects exactly the top step3_keep positions ranked by the
stage-3 measurements (every selected position dominates every unselected
one), carrying the stage-2 survivors' proxy values, while the 2-step branch
re-ranks the stage-2 vector and takes the top
min step3_keep (length of the stage-2 vector) positions, the recorded count
is at most step3_keep, a trial is fully successful exactly when the count
equals step3_keep, and step3_keep is never validated against step2_keep in a
2-step workflow. -/
theorem C9_final_keep
    {B : Backend} {rep : ℕ} {real_data : List ℚ} {df : DataFrame} {cutoff : ℚ}
    {step1_keep step2_keep step3_keep : ℕ} {correlation : ℚ} {method : String}
    {criteria_settings : List (String × String × ℚ)} {apply_criteria : Bool}
    {workflow_steps : ℕ} {fitted_model : Option LognormModel} {t : TrialTrace}
    (h : runTrial B rep real_data df cutoff step1_keep step2_keep step3_keep
      correlation method criteria_settings apply_criteria workflow_steps
      fitted_model = some t)
    (hk3 : 1 ≤ step3_keep) :
    (workflow_steps = 3 → ∃ ah, t.assay_h = some ah ∧
      t.final_idx = negSlice step3_keep (argsort ah) ∧
      t.final_scores = t.final_idx.map (fun i => t.top2_f.getD i 0) ∧
      t.final_idx.length = step3_keep ∧
      t.final_scores.length = step3_keep ∧
      (∀ i ∈ t.final_idx, ∀ j, j < ah.length → j ∉ t.final_idx →
        ah.getD j 0 ≤ ah.getD i 0)) ∧
    (workflow_steps ≠ 3 →
      t.final_idx = negSlice step3_keep (argsort t.assay_g) ∧
      t.final_scores = t.final_idx.map (fun i => t.top1_f.getD i 0) ∧
      t.final_idx.length = min step3_keep t.assay_g.length) ∧
    t.count ≤ step3_keep ∧
    t.count = t.final_scores.countP (fun x => decide (cutoff ≤ x)) ∧
    (trialFullySuccessful step3_keep t = true ↔ t.count = step3_keep) ∧
    (∀ n k3x, validateWorkflowInputs n step1_keep step2_keep step3_keep 2 =
      validateWorkflowInputs n step1_keep step2_keep k3x 2) := by
  obtain ⟨af, s2, s3, hs1, hs2, hs3, haf, hti, htf, hn1, hg, ht2i, ht2f, hah, hfi,
    hfs, hc⟩ := runTrial_some h
  obtain ⟨h3c, h2c⟩ := trialStage3_some hs3
  have hcple : s3.final_scores.countP (fun x => decide (cutoff ≤ x)) ≤
      s3.final_scores.length := List.countP_le_length _
  have hcount_le : t.count ≤ step3_keep := by
    rw [hc]
    by_cases hw : workflow_steps = 3
    · obtain ⟨ah, hah2, hlen2, hfi2, hfs2⟩ := h3c hw
      have e1 : s3.final_scores.length = step3_keep := by
        rw [hfs2, List.length_map, hfi2, negSlice_length _ _ (by omega),
          argsort_length]
        omega
      omega
    · obtain ⟨hah2, hfi2, hfs2⟩ := h2c hw
      have e1 : s3.final_scores.length = min step3_keep s2.assay_g.length := by
        rw [hfs2, List.length_map, hfi2, negSlice_length _ _ (by omega),
          argsort_length]
      omega
  refine ⟨?_, ?_, hcount_le, ?_, ?_, ?_⟩
  · intro hw
    obtain ⟨ah, hah2, hlen2, hfi2, hfs2⟩ := h3c hw
    refine ⟨ah, ?_, ?_, ?_, ?_, ?_, ?_⟩
    · rw [hah, hah2]
    · rw [hfi, hfi2]
    · rw [hfs, hfs2, hfi, ht2f]
    · rw [hfi, hfi2, negSlice_length _ _ (by omega), argsort_length]; omega
    · rw [hfs, hfs2, List.length_map, hfi2, negSlice_length _ _ (by omega),
        argsort_length]
      omega
    · intro i hi j hj hjn
      rw [hfi, hfi2] at hi hjn
      exact negSlice_dominates ah step3_keep i hi j hj hjn
  · intro hw
    obtain ⟨hah2, hfi2, hfs2⟩ := h2c hw
    refine ⟨?_, ?_, ?_⟩
    · rw [hfi, hfi2, hg]
    · rw [hfs, hfs2, hfi, htf]
    · rw [hfi, hfi2, negSlice_length _ _ (by omega), argsort_length, hg]
  · rw [hc, hfs]
  · simp [trialFullySuccessful]
  · intro n k3x
    simp [validateWorkflowInputs]

/-- C9 counterexample: with step3_keep equal to 0 (accepted by validation in
a 2-step workflow), a completed trial records a success count of 1, which
exceeds step3_keep, refuting the claim that the recorded count is always
between 0 and step3_keep and that the final selection takes step3_keep
positions. -/
theorem C9_counterexample :
    (runTrial B0 0 [1] df0 0 1 1 0 (1 / 2) "kde" [] true 2 none).map
      (fun t => t.count) = some 1 ∧ ¬ (1 ≤ (0 : ℕ)) := by
  rw [runTrialEval 0 0]
  exact ⟨rfl, by omega⟩

/-- C9 witness: the amended theorem instantiated at the concrete evaluated
trial with step3_keep equal to 1. -/
theorem C9_witness :
    t0.count ≤ 1 ∧
    t0.count = t0.final_scores.countP (fun x => decide ((0 : ℚ) ≤ x)) ∧
    (trialFullySuccessful 1 t0 = true ↔ t0.count = 1) := by
  have h := C9_final_keep (runTrialEval 0 1) (by omega)
  exact ⟨h.2.2.1, h.2.2.2.1, h.2.2.2.2.1⟩

/-- C3 counterexample: for the kde method, generate_samples builds the kernel
estimate from the positive-filtered data, not from the raw data: with data
containing a non-positive value the produced sample differs from the one the
unfiltered-data reading of the spec predicts. -/
theorem C3_counterexample :
    generate_samples B1 (fun _ => 0) [-1, 2] 1 "kde" none = .ok [2] ∧
    kdeResampleSpec B1 (fun _ => 0) [-1, 2] 1 = [1] ∧
    (Except.ok [2] : Except String (List ℚ)) ≠ .ok [1] := by
  refine ⟨?_, ?_, ?_⟩
  · norm_num [generate_samples, B1, String.reduceEq, List.filter] <;> (intro h; simp at h)
  · norm_num [kdeResampleSpec, B1]
  · intro hcontra
    simp only [Except.ok.injEq, List.cons.injEq, and_true] at hcontra
    norm_num at hcontra

/-- C3 (amended): for the kde method generate_samples first filters out the
non-positive values (the same up-front filter the lognormal path uses),
builds the kernel estimate from the filtered data, and resamples exactly
count points. -/
theorem C3_amended (B : Backend) (stream : ℕ → ℚ) (data : List ℚ) (size : ℕ)
    (hne : data.filter (fun x => decide (0 < x)) ≠ []) :
    generate_samples B stream data size "kde" none =
      .ok ((List.range size).map (fun i =>
        B.kdeSample (data.filter (fun x => decide (0 < x))) (stream i))) ∧
    (∀ l, generate_samples B stream data size "kde" none = .ok l →
      l.length = size) := by
  constructor
  · simp only [generate_samples]
    rw [if_neg (by simp [hne]), if_neg (by decide)]
    simp
  · intro l hl
    exact generate_samples_ok_length hl

/-- C3 witness: the amended theorem at a concrete input whose data holds a
non-positive value. -/
theorem C3_witness :
    generate_samples B1 (fun _ => 0) [-1, 2] 3 "kde" none =
      .ok ((List.range 3).map (fun i =>
        B1.kdeSample (List.filter (fun x => decide (0 < x)) [-1, 2])
          ((fun _ => (0 : ℚ)) i))) ∧
    (∀ l, generate_samples B1 (fun _ => 0) [-1, 2] 3 "kde" none = .ok l →
      l.length = 3) :=
  C3_amended B1 (fun _ => 0) [-1, 2] 3 (by norm_num [List.filter])

/-- C7: the equality operator of the criteria filter is epsilon equality with
threshold 1e-10: a value exactly at threshold plus or minus 1e-11 passes,
while plus or minus 1e-9 fails. -/
theorem C7_epsilon_equality (v thr : ℚ) :
    apply_criteria_filter { nrows := 1, cols := [("c", [v])] } [("c", "=", thr)] [0] =
      .ok [decide (|v - thr| < 1 / 10 ^ 10)] ∧
    apply_criteria_filter { nrows := 1, cols := [("c", [thr + 1 / 10 ^ 11])] }
      [("c", "=", thr)] [0] = .ok [true] ∧
    apply_criteria_filter { nrows := 1, cols := [("c", [thr - 1 / 10 ^ 11])] }
      [("c", "=", thr)] [0] = .ok [true] ∧
    apply_criteria_filter { nrows := 1, cols := [("c", [thr + 1 / 10 ^ 9])] }
      [("c", "=", thr)] [0] = .ok [false] ∧
    apply_criteria_filter { nrows := 1, cols := [("c", [thr - 1 / 10 ^ 9])] }
      [("c", "=", thr)] [0] = .ok [false] := by
  have key : ∀ w : ℚ, apply_criteria_filter { nrows := 1, cols := [("c", [w])] }
      [("c", "=", thr)] [0] = .ok [decide (|w - thr| < 1 / 10 ^ 10)] := by
    intro w
    simp [apply_criteria_filter, applyCriteriaGo, DataFrame.col, String.reduceEq,
      List.find?]
  refine ⟨key v, ?_, ?_, ?_, ?_⟩
  · rw [key]
    simp only [Except.ok.injEq, List.cons.injEq, and_true, decide_eq_true_eq]
    rw [show thr + 1 / 10 ^ 11 - thr = 1 / 10 ^ 11 by ring,
      abs_of_pos (by norm_num)]
    norm_num
  · rw [key]
    simp only [Except.ok.injEq, List.cons.injEq, and_true, decide_eq_true_eq]
    rw [show thr - 1 / 10 ^ 11 - thr = -(1 / 10 ^ 11) by ring, abs_neg,
      abs_of_pos (by norm_num)]
    norm_num
  · rw [key]
    simp only [Except.ok.injEq, List.cons.injEq, and_true,
      decide_eq_false_iff_not]
    rw [show thr + 1 / 10 ^ 9 - thr = 1 / 10 ^ 9 by ring,
      abs_of_pos (by norm_num)]
    norm_num
  · rw [key]
    simp only [Except.ok.injEq, List.cons.injEq, and_true,
      decide_eq_false_iff_not]
    rw [show thr - 1 / 10 ^ 9 - thr = -(1 / 10 ^ 9) by ring, abs_neg,
      abs_of_pos (by norm_num)]
    norm_num

/-- C8 counterexample: a criterion with an unsupported operator whose column
is missing from the table is skipped, so apply_criteria_filter succeeds with
an all-true mask instead of failing as the claim requires. -/
theorem C8_counterexample :
    apply_criteria_filter df0 [("c", "!", (0 : ℚ))] [0] = .ok [true] ∧
    ¬ ("!" = ">=" ∨ "!" = "<=" ∨ "!" = "=") := by
  constructor
  · simp [apply_criteria_filter, applyCriteriaGo, DataFrame.col, df0]
  · simp

theorem exists_cons_iff_of_head_false {α : Type} (P : α → Prop) (hd : α)
    (rest : List α) (hhd : ¬ P hd) :
    (∃ cr ∈ hd :: rest, P cr) ↔ (∃ cr ∈ rest, P cr) := by
  constructor
  · rintro ⟨cr, hm, hp⟩
    rcases List.mem_cons.mp hm with rfl | hm2
    · exact absurd hp hhd
    · exact ⟨cr, hm2, hp⟩
  · rintro ⟨cr, hm, hp⟩
    exact ⟨cr, List.mem_cons_of_mem _ hm, hp⟩

theorem applyCriteriaGo_error_iff (df : DataFrame) (indices : List ℕ)
    (criteria : List (String × String × ℚ))
    (hb : indicesInBounds df criteria indices = true) :
    ∀ mask, exceptIsError (applyCriteriaGo df indices criteria mask) = true ↔
      ∃ cr ∈ criteria, (DataFrame.col df cr.1).isSome = true ∧
        cr.2.1 ≠ ">=" ∧ cr.2.1 ≠ "<=" ∧ cr.2.1 ≠ "=" := by
  induction criteria with
  | nil =>
    intro mask
    simp [applyCriteriaGo, exceptIsError]
  | cons cr rest ih =>
    obtain ⟨c, op, thr⟩ := cr
    simp only [indicesInBounds, List.all_cons, Bool.and_eq_true] at hb
    obtain ⟨hb1, hb2⟩ := hb
    have hbrest : indicesInBounds df rest indices = true := hb2
    intro mask
    simp only [applyCriteriaGo]
    cases hcol : DataFrame.col df c with
    | none =>
      simp only [hcol]
      rw [ih hbrest mask,
        exists_cons_iff_of_head_false _ (c, op, thr) rest (by simp [hcol])]
    | some colVals =>
      rw [hcol] at hb1
      have hnb : indices.any (fun i => decide (colVals.length ≤ i)) = false := by
        rw [List.any_eq_false]
        intro i hi
        have h5 := List.all_eq_true.mp hb1 i hi
        simp only [decide_eq_true_eq] at h5
        simp only [ne_eq, decide_eq_true_eq]
        omega
      simp only [hcol, hnb, Bool.false_eq_true, if_false]
      by_cases h1 : op = ">="
      · subst h1
        rw [if_pos rfl, ih hbrest,
          exists_cons_iff_of_head_false _ (c, ">=", thr) rest (by simp)]
      · rw [if_neg h1]
        by_cases h2 : op = "<="
        · subst h2
          rw [if_pos rfl, ih hbrest,
            exists_cons_iff_of_head_false _ (c, "<=", thr) rest (by simp)]
        · rw [if_neg h2]
          by_cases h3 : op = "="
          · subst h3
            rw [if_pos rfl, ih hbrest,
              exists_cons_iff_of_head_false _ (c, "=", thr) rest (by simp)]
          · rw [if_neg h3]
            simp only [exceptIsError, true_iff]
            exact ⟨(c, op, thr), List.mem_cons_self _ _, by simp [hcol], h1, h2, h3⟩

/-- C8 (amended): for index sequences within bounds of the present columns,
apply_criteria_filter fails exactly when some criterion pairs an unsupported
operator with a column that exists in the table; a criterion whose column is
missing is skipped entirely, so even its operator is never checked. -/
theorem C8_amended (df : DataFrame) (criteria : List (String × String × ℚ))
    (indices : List ℕ) (hb : indicesInBounds df criteria indices = true) :
    exceptIsError (apply_criteria_filter df criteria indices) = true ↔
      ∃ cr ∈ criteria, (DataFrame.col df cr.1).isSome = true ∧
        cr.2.1 ≠ ">=" ∧ cr.2.1 ≠ "<=" ∧ cr.2.1 ≠ "=" := by
  unfold apply_criteria_filter
  split
  · rename_i hemp
    have : criteria = [] := by simpa using hemp
    subst this
    simp [exceptIsError]
  · exact applyCriteriaGo_error_iff df indices criteria hb _

/-- C8 witness: with the column present, the unsupported operator does make
the filter fail. -/
theorem C8_witness :
    exceptIsError (apply_criteria_filter df1 [("c", "!", (0 : ℚ))] [0]) = true := by
  rw [C8_amended df1 [("c", "!", (0 : ℚ))] [0] (by decide)]
  exact ⟨("c", "!", (0 : ℚ)), List.mem_cons_self _ _, by simp [df1, DataFrame.col],
    by decide, by decide, by decide⟩

/-- C5: the sensitivity sweep returns the five candidate values and one
probability per candidate for every swept parameter; each probability is the
simulator's result for the re-clamped candidate settings, with any simulator
failure caught and recorded as probability 0, never propagated. -/
theorem C5_sweep_fallback_zero (Bf : SweepParam → ℕ → Backend) (results : List ℚ)
    (df : DataFrame) (s : Settings) (correlations : List ℚ) (p : SweepParam) (i : ℕ)
    (hi : i < (paramCandidates s p).length) :
    (run_sensitivity_analysis Bf results df s correlations p).1 =
      paramCandidates s p ∧
    (run_sensitivity_analysis Bf results df s correlations p).2.length =
      (paramCandidates s p).length ∧
    (run_sensitivity_analysis Bf results df s correlations p).2.getD i 0 =
      candidateProb (Bf p i) results df
        (applyCandidate s p ((paramCandidates s p).getD i 0))
        (correlations.getD 0 (1 / 2)) := by
  refine ⟨rfl, by simp [run_sensitivity_analysis], ?_⟩
  simp only [run_sensitivity_analysis]
  rw [List.getD_eq_getElem _ _ (by simpa using hi), List.getElem_map,
    List.getElem_range]
  rfl

/-- C5 witness: the theorem at a concrete sweep whose first candidate
violates the data-size constraint, so the recorded probability is the
caught-failure fallback 0. -/
theorem C5_witness :
    ((run_sensitivity_analysis Bf0 [1] df0 s0 [] SweepParam.step1_keep).1 =
      paramCandidates s0 SweepParam.step1_keep ∧
     (run_sensitivity_analysis Bf0 [1] df0 s0 [] SweepParam.step1_keep).2.length =
      (paramCandidates s0 SweepParam.step1_keep).length ∧
     (run_sensitivity_analysis Bf0 [1] df0 s0 [] SweepParam.step1_keep).2.getD 0 0 =
      candidateProb (Bf0 SweepParam.step1_keep 0) [1] df0
        (applyCandidate s0 SweepParam.step1_keep
          ((paramCandidates s0 SweepParam.step1_keep).getD 0 0))
        (([] : List ℚ).getD 0 (1 / 2))) ∧
    candidateProb (Bf0 SweepParam.step1_keep 0) [1] df0
      (applyCandidate s0 SweepParam.step1_keep
        ((paramCandidates s0 SweepParam.step1_keep).getD 0 0))
      (([] : List ℚ).getD 0 (1 / 2)) = 0 := by
  refine ⟨C5_sweep_fallback_zero Bf0 [1] df0 s0 [] SweepParam.step1_keep 0
    (by decide), ?_⟩
  norm_num [candidateProb, simulate_workflow, validateWorkflowInputs,
    applyCandidate, paramCandidates, s0]

/-- C6: for every baseline, the swept candidates for step1_keep and
step2_keep are the baseline scaled by 0.5, 0.75, 1, 1.25 and 1.5 rounded
down to integers, and the top_x_percent sweep always tests exactly
1, 2, 5, 10 and 15; the sweep reports exactly these five values. -/
theorem C6_candidate_grid (s : Settings) (Bf : SweepParam → ℕ → Backend)
    (results : List ℚ) (df : DataFrame) (correlations : List ℚ) :
    paramCandidates s SweepParam.step1_keep =
      [⌊(0.5 : ℚ) * s.step1_keep⌋₊, ⌊(0.75 : ℚ) * s.step1_keep⌋₊, s.step1_keep,
       ⌊(1.25 : ℚ) * s.step1_keep⌋₊, ⌊(1.5 : ℚ) * s.step1_keep⌋₊] ∧
    paramCandidates s SweepParam.step2_keep =
      [⌊(0.5 : ℚ) * s.step2_keep⌋₊, ⌊(0.75 : ℚ) * s.step2_keep⌋₊, s.step2_keep,
       ⌊(1.25 : ℚ) * s.step2_keep⌋₊, ⌊(1.5 : ℚ) * s.step2_keep⌋₊] ∧
    paramCandidates s SweepParam.top_x_percent = [1, 2, 5, 10, 15] ∧
    (∀ p, (run_sensitivity_analysis Bf results df s correlations p).1 =
      paramCandidates s p) := by
  have key : ∀ a b n : ℕ, ⌊((a : ℚ) / (b : ℚ)) * (n : ℚ)⌋₊ = a * n / b := by
    intro a b n
    rw [div_mul_eq_mul_div, ← Nat.cast_mul, Nat.floor_div_nat, Nat.floor_natCast]
  have k05 : ∀ n : ℕ, ⌊(0.5 : ℚ) * (n : ℚ)⌋₊ = n / 2 := by
    intro n
    rw [show (0.5 : ℚ) = ((1 : ℕ) : ℚ) / ((2 : ℕ) : ℚ) by norm_num, key]
    omega
  have k075 : ∀ n : ℕ, ⌊(0.75 : ℚ) * (n : ℚ)⌋₊ = n * 3 / 4 := by
    intro n
    rw [show (0.75 : ℚ) = ((3 : ℕ) : ℚ) / ((4 : ℕ) : ℚ) by norm_num, key]
    omega
  have k125 : ∀ n : ℕ, ⌊(1.25 : ℚ) * (n : ℚ)⌋₊ = n * 5 / 4 := by
    intro n
    rw [show (1.25 : ℚ) = ((5 : ℕ) : ℚ) / ((4 : ℕ) : ℚ) by norm_num, key]
    omega
  have k15 : ∀ n : ℕ, ⌊(1.5 : ℚ) * (n : ℚ)⌋₊ = n * 3 / 2 := by
    intro n
    rw [show (1.5 : ℚ) = ((3 : ℕ) : ℚ) / ((2 : ℕ) : ℚ) by norm_num, key]
    omega
  refine ⟨?_, ?_, rfl, fun p => rfl⟩
  · simp [paramCandidates, k05, k075, k125, k15]
  · simp [paramCandidates, k05, k075, k125, k15]

/-- C10: for positive keep counts and a 2- or 3-step workflow, the
efficiency metrics satisfy step1 times step2 efficiency equals overall
efficiency and reduction ratio times overall efficiency equals one; in the
2-step case the step-2 efficiency is one and the final selected count is
step2_keep (reduction ratio step1/step2, overall step2/step1). -/
theorem C10_efficiency_relations (step1_keep step2_keep step3_keep workflow_steps : ℕ)
    (h1 : 0 < step1_keep) (h2 : 0 < step2_keep) (h3 : 0 < step3_keep)
    (hsteps : workflow_steps = 2 ∨ workflow_steps = 3) :
    EfficiencyMetrics.step1_efficiency
        (calculate_workflow_efficiency step1_keep step2_keep step3_keep
          workflow_steps) *
      EfficiencyMetrics.step2_efficiency
        (calculate_workflow_efficiency step1_keep step2_keep step3_keep
          workflow_steps) =
      EfficiencyMetrics.overall_efficiency
        (calculate_workflow_efficiency step1_keep step2_keep step3_keep
          workflow_steps) ∧
    EfficiencyMetrics.reduction_ratio
        (calculate_workflow_efficiency step1_keep step2_keep step3_keep
          workflow_steps) *
      EfficiencyMetrics.overall_efficiency
        (calculate_workflow_efficiency step1_keep step2_keep step3_keep
          workflow_steps) = 1 ∧
    (workflow_steps = 2 →
      EfficiencyMetrics.step2_efficiency
        (calculate_workflow_efficiency step1_keep step2_keep step3_keep
          workflow_steps) = 1 ∧
      EfficiencyMetrics.reduction_ratio
        (calculate_workflow_efficiency step1_keep step2_keep step3_keep
          workflow_steps) = (step1_keep : ℚ) / (step2_keep : ℚ) ∧
      EfficiencyMetrics.overall_efficiency
        (calculate_workflow_efficiency step1_keep step2_keep step3_keep
          workflow_steps) = (step2_keep : ℚ) / (step1_keep : ℚ)) := by
  have hq1 : (step1_keep : ℚ) ≠ 0 := Nat.cast_ne_zero.mpr (by omega)
  have hq2 : (step2_keep : ℚ) ≠ 0 := Nat.cast_ne_zero.mpr (by omega)
  have hq3 : (step3_keep : ℚ) ≠ 0 := Nat.cast_ne_zero.mpr (by omega)
  rcases hsteps with hs | hs <;> subst hs
  · refine ⟨?_, ?_, fun _ => ⟨?_, ?_, ?_⟩⟩ <;>
      simp [calculate_workflow_efficiency] <;> field_simp
  · refine ⟨?_, ?_, fun hcontra => absurd hcontra (by omega)⟩ <;>
      simp [calculate_workflow_efficiency] <;> field_simp <;> ring

/-- C10 witness: the relations at the concrete 2-step configuration 4, 2, 1. -/
theorem C10_witness :
    EfficiencyMetrics.step1_efficiency (calculate_workflow_efficiency 4 2 1 2) *
      EfficiencyMetrics.step2_efficiency (calculate_workflow_efficiency 4 2 1 2) =
      EfficiencyMetrics.overall_efficiency (calculate_workflow_efficiency 4 2 1 2) ∧
    EfficiencyMetrics.reduction_ratio (calculate_workflow_efficiency 4 2 1 2) *
      EfficiencyMetrics.overall_efficiency (calculate_workflow_efficiency 4 2 1 2) =
      1 ∧
    ((2 : ℕ) = 2 →
      EfficiencyMetrics.step2_efficiency (calculate_workflow_efficiency 4 2 1 2) =
        1 ∧
      EfficiencyMetrics.reduction_ratio (calculate_workflow_efficiency 4 2 1 2) =
        ((4 : ℕ) : ℚ) / ((2 : ℕ) : ℚ) ∧
      EfficiencyMetrics.overall_efficiency (calculate_workflow_efficiency 4 2 1 2) =
        ((2 : ℕ) : ℚ) / ((4 : ℕ) : ℚ)) :=
  C10_efficiency_relations 4 2 1 2 (by omega) (by omega) (by omega) (Or.inl rfl)

end CloneSim
